import Mathlib

/-!
Shallow embedding of the soil nutrient prediction engine from
`src/script.js` (class `SoilAnalyzer`).  Real-number arithmetic of the
JavaScript source is modelled over `ℚ`; every call to `Math.random()`
becomes an explicit parameter (a `Noise` record), so every function of
the engine is a pure Lean function.  `Math.round(x*10)/10` is modelled
by `round1` (JavaScript `Math.round` is `⌊x + 1/2⌋`), and
`Math.max(0, Math.min(100, x))` by `clamp100`.
-/

/-- Input record collected by `collectFormData` in `src/script.js`. -/
structure SoilInput where
  pH : ℚ
  temperature : ℚ
  moisture : ℚ
  ec : ℚ
  organicCarbon : ℚ
  soilType : String
deriving DecidableEq

/-- Clamped nutrient estimates (the object `{ nitrogen, phosphorus, potassium }`
built in `generatePredictions` after the `Math.max(0, Math.min(100, _))` lines). -/
structure Nutrients where
  nitrogen : ℚ
  phosphorus : ℚ
  potassium : ℚ
deriving DecidableEq

/-- One soil-type modifier entry `{ n, p, k }` of the `soilModifiers` table. -/
structure Modifier where
  n : ℚ
  p : ℚ
  k : ℚ
deriving DecidableEq

/-- A recommendation object `{ type, action, priority }` pushed by
`generateRecommendations`. -/
structure Recommendation where
  type : String
  action : String
  priority : String
deriving DecidableEq

/-- The four `Math.random()` draws made during one `generatePredictions`
call: one per nutrient (`calculateNitrogen`, `calculatePhosphorus`,
`calculatePotassium`) and one for the confidence field, in that order.
Each models a value in `[0,1)`. -/
structure Noise where
  rn : ℚ
  rp : ℚ
  rk : ℚ
  rconf : ℚ
deriving DecidableEq

/-- Every random draw lies in `[0,1)`, the range of `Math.random()`. -/
def Noise.valid (ns : Noise) : Prop :=
  (0 ≤ ns.rn ∧ ns.rn < 1) ∧ (0 ≤ ns.rp ∧ ns.rp < 1) ∧
    (0 ≤ ns.rk ∧ ns.rk < 1) ∧ (0 ≤ ns.rconf ∧ ns.rconf < 1)

instance (ns : Noise) : Decidable ns.valid := by
  unfold Noise.valid
  infer_instance

/-- JavaScript `Math.round`: rounds to the nearest integer, halves toward
positive infinity, i.e. `⌊x + 1/2⌋`. -/
def jsRound (x : ℚ) : ℤ := ⌊x + 1 / 2⌋

/-- The `Math.round(x * 10) / 10` idiom used throughout `generatePredictions`. -/
def round1 (x : ℚ) : ℚ := (jsRound (x * 10) : ℚ) / 10

/-- `Math.max(0, Math.min(100, x))`, the normalization applied to each
nutrient in `generatePredictions`. -/
def clamp100 (x : ℚ) : ℚ := max 0 (min 100 x)

/-- The `ranges` table of `getParameterStatus`: for each known parameter
name, its `(low, optimal, high)` triple; `none` for unknown names. -/
def paramRanges : String → Option (ℚ × ℚ × ℚ)
  | "pH" => some (5.5, 7, 8.5)
  | "temperature" => some (18, 25, 30)
  | "moisture" => some (30, 50, 70)
  | "ec" => some (0.5, 1.2, 2)
  | "organicCarbon" => some (1, 2.5, 3.5)
  | _ => none

/-- `getParameterStatus(parameter, value)` from `src/script.js`. -/
def getParameterStatus (parameter : String) (value : ℚ) : String :=
  match paramRanges parameter with
  | none => "Unknown"
  | some (low, optimal, high) =>
    if value < low then "Low"
    else if value > high then "High"
    else if |value - optimal| ≤ optimal * 0.2 then "Optimal"
    else "Good"

/-- The `soilModifiers` lookup with its `|| soilModifiers.loam` fallback:
unrecognized soil types get the loam modifier `(1, 1, 1)`. -/
def soilModifier : String → Modifier
  | "clay" => ⟨1.1, 0.9, 1⟩
  | "sandy" => ⟨0.8, 1.1, 0.9⟩
  | "loam" => ⟨1, 1, 1⟩
  | "silt" => ⟨0.9, 1, 1.1⟩
  | "peat" => ⟨1.2, 0.8, 0.8⟩
  | "chalk" => ⟨0.7, 1.2, 0.9⟩
  | _ => ⟨1, 1, 1⟩

/-- `calculateNitrogen(pH, temp, moisture, organicCarbon)`; the trailing
`Math.random() * 10` is `r * 10` with `r` the explicit random draw. -/
def calculateNitrogen (pH temp moisture organicCarbon r : ℚ) : ℚ :=
  organicCarbon * 15 * (1 - |pH - 6.75| * 0.15) * (1 - |temp - 25| * 0.02) *
    (if 40 < moisture ∧ moisture < 70 then 1.1 else 0.9) + r * 10

/-- `calculatePhosphorus(pH, ec, organicCarbon, temp)`; noise is `r * 15`. -/
def calculatePhosphorus (pH ec organicCarbon temp : ℚ) (r : ℚ) : ℚ :=
  (organicCarbon * 8 + ec * 10) * (if pH < 7 then 1.2 else 1 - (pH - 7) * 0.1) *
    (if temp > 20 then 1.1 else 0.9) + r * 15

/-- `calculatePotassium(pH, ec, moisture, soilType)`; noise is `r * 12`. -/
def calculatePotassium (pH ec moisture : ℚ) (soilType : String) (r : ℚ) : ℚ :=
  (ec * 15 + moisture * 0.5) * (if 6 < pH ∧ pH < 8 then 1.1 else 0.9) *
    (if soilType = "clay" then 1.2 else 1) + r * 12

/-- The nutrient pipeline of `generatePredictions`: each `calculateX`
result is multiplied by its soil-type modifier component and clamped
(`Math.max(0, Math.min(100, _))`). -/
def estimateNutrients (data : SoilInput) (ns : Noise) : Nutrients :=
  { nitrogen := clamp100 (calculateNitrogen data.pH data.temperature data.moisture
      data.organicCarbon ns.rn * (soilModifier data.soilType).n)
    phosphorus := clamp100 (calculatePhosphorus data.pH data.ec data.organicCarbon
      data.temperature ns.rp * (soilModifier data.soilType).p)
    potassium := clamp100 (calculatePotassium data.pH data.ec data.moisture
      data.soilType ns.rk * (soilModifier data.soilType).k) }

/-- `calculateSoilHealth(n, p, k, pH, organicCarbon)`. -/
def calculateSoilHealth (n p k pH organicCarbon : ℚ) : ℚ :=
  (n + p + k) / 3 * 0.4 + (100 - |pH - 6.8| * 10) * 0.3 +
    min (organicCarbon * 25) 100 * 0.3

/-- `calculateFertilityIndex(n, p, k)`. -/
def calculateFertilityIndex (n p k : ℚ) : ℚ :=
  n * 0.4 + p * 0.35 + k * 0.25

/-- The `risks` array built by `assessRisks` (push order of the source). -/
def riskList (data : SoilInput) (nutrients : Nutrients) : List String :=
  (if data.pH < 5.5 then ["Soil acidity"] else []) ++
  (if data.pH > 8.5 then ["Soil alkalinity"] else []) ++
  (if data.ec > 2.5 then ["High salinity"] else []) ++
  (if nutrients.nitrogen < 30 then ["Nitrogen deficiency"] else []) ++
  (if nutrients.phosphorus < 25 then ["Phosphorus deficiency"] else []) ++
  (if nutrients.potassium < 35 then ["Potassium deficiency"] else [])

/-- `assessRisks(data, nutrients)`: joined risk string or the sentinel. -/
def assessRisks (data : SoilInput) (nutrients : Nutrients) : String :=
  if (riskList data nutrients).length > 0 then
    String.intercalate ", " (riskList data nutrients)
  else "Low risk"

/-- `assessCropSuitability(soilHealth, fertilityIndex)`. -/
def assessCropSuitability (soilHealth fertilityIndex : ℚ) : String :=
  if (soilHealth + fertilityIndex) / 2 ≥ 80 then "Excellent for all crops"
  else if (soilHealth + fertilityIndex) / 2 ≥ 65 then "Good for most crops"
  else if (soilHealth + fertilityIndex) / 2 ≥ 50 then "Suitable with amendments"
  else "Requires significant improvement"

/-- The lime recommendation object pushed when `pH < 6.0`. -/
def limeRec : Recommendation :=
  ⟨"pH Correction", "Apply lime to raise pH", "High"⟩

/-- The sulfur recommendation object pushed when `pH > 8.0`. -/
def sulfurRec : Recommendation :=
  ⟨"pH Correction", "Apply sulfur to lower pH", "High"⟩

/-- The pH branch of `generateRecommendations`: `pH < 6.0` pushes the lime
recommendation, `else if pH > 8.0` the sulfur one. -/
def pHRecommendation (data : SoilInput) : List Recommendation :=
  if data.pH < 6 then [limeRec]
  else if data.pH > 8 then [sulfurRec]
  else []

/-- The three nutrient branches of `generateRecommendations`, in push order. -/
def nutrientRecommendation (nutrients : Nutrients) : List Recommendation :=
  (if nutrients.nitrogen < 40 then
    [⟨"Nitrogen", "Apply nitrogen fertilizer or compost", "Medium"⟩] else []) ++
  (if nutrients.phosphorus < 30 then
    [⟨"Phosphorus", "Apply phosphate fertilizer", "Medium"⟩] else []) ++
  (if nutrients.potassium < 40 then
    [⟨"Potassium", "Apply potash fertilizer", "Medium"⟩] else [])

/-- The organic matter branch of `generateRecommendations`. -/
def organicRecommendation (data : SoilInput) : List Recommendation :=
  if data.organicCarbon < 2 then
    [⟨"Organic Matter", "Add compost or organic amendments", "High"⟩] else []

/-- `generateRecommendations(data, nutrients)`: pH branch, then nutrient
branches, then organic matter, exactly the push order of the source. -/
def generateRecommendations (data : SoilInput) (nutrients : Nutrients) :
    List Recommendation :=
  pHRecommendation data ++ nutrientRecommendation nutrients ++
    organicRecommendation data

/-- Number of pH-category recommendations in a recommendation list. -/
def countPHRecs (recs : List Recommendation) : ℕ :=
  recs.countP (fun r => r.type == "pH Correction")

/-- The result object returned by `generatePredictions`. -/
structure AnalysisResult where
  nitrogen : ℚ
  phosphorus : ℚ
  potassium : ℚ
  soilHealth : ℚ
  fertilityIndex : ℚ
  riskAssessment : String
  cropSuitability : String
  confidence : ℚ
  recommendations : List Recommendation
deriving DecidableEq

/-- `generatePredictions(data)` from `src/script.js`, with the four
`Math.random()` draws passed explicitly.  Risk assessment, suitability
and recommendations use the clamped (unrounded) nutrients; the returned
nutrient, health, fertility and confidence fields are rounded to one
decimal via `Math.round(_ * 10) / 10`. -/
def generatePredictions (data : SoilInput) (ns : Noise) : AnalysisResult :=
  { nitrogen := round1 (estimateNutrients data ns).nitrogen
    phosphorus := round1 (estimateNutrients data ns).phosphorus
    potassium := round1 (estimateNutrients data ns).potassium
    soilHealth := round1 (calculateSoilHealth (estimateNutrients data ns).nitrogen
      (estimateNutrients data ns).phosphorus (estimateNutrients data ns).potassium
      data.pH data.organicCarbon)
    fertilityIndex := round1 (calculateFertilityIndex
      (estimateNutrients data ns).nitrogen (estimateNutrients data ns).phosphorus
      (estimateNutrients data ns).potassium)
    riskAssessment := assessRisks data (estimateNutrients data ns)
    cropSuitability := assessCropSuitability
      (calculateSoilHealth (estimateNutrients data ns).nitrogen
        (estimateNutrients data ns).phosphorus (estimateNutrients data ns).potassium
        data.pH data.organicCarbon)
      (calculateFertilityIndex (estimateNutrients data ns).nitrogen
        (estimateNutrients data ns).phosphorus (estimateNutrients data ns).potassium)
    confidence := round1 (85 + ns.rconf * 15)
    recommendations := generateRecommendations data (estimateNutrients data ns) }

/-- Modelled from the spec: the nitrogen base formula as section 4.2 words
it, for comparison with `calculateNitrogen` of the source. -/
def specNitrogenBase (data : SoilInput) : ℚ :=
  data.organicCarbon * 15 * (1 - 0.15 * |data.pH - 6.75|) *
    (1 - 0.02 * |data.temperature - 25|) *
    (if 40 < data.moisture ∧ data.moisture < 70 then 1.1 else 0.9)

/-- The reset defaults of the input collaborator: pH 6.5, temperature 25,
moisture 50, EC 1.2, organic carbon 2.2, loam. -/
def defaultInput : SoilInput := ⟨6.5, 25, 50, 1.2, 2.2, "loam"⟩

/-- An extreme but well-formed input: pH 20, temperature 25, moisture 50,
zero electrical conductivity and zero organic carbon, loam soil. -/
def extremeInput : SoilInput := ⟨20, 25, 50, 0, 0, "loam"⟩

section Lemmas

/-- `round1` is monotone: JavaScript rounding preserves order. -/
theorem round1_mono {x y : ℚ} (h : x ≤ y) : round1 x ≤ round1 y := by
  unfold round1 jsRound
  have hf : ⌊x * 10 + 1 / 2⌋ ≤ ⌊y * 10 + 1 / 2⌋ := Int.floor_le_floor (by linarith)
  have hq : ((⌊x * 10 + 1 / 2⌋ : ℤ) : ℚ) ≤ ((⌊y * 10 + 1 / 2⌋ : ℤ) : ℚ) := by
    exact_mod_cast hf
  linarith

/-- Rounding a nonnegative value to one decimal stays nonnegative. -/
theorem round1_nonneg {x : ℚ} (h : 0 ≤ x) : 0 ≤ round1 x := by
  have h0 : round1 0 = 0 := by norm_num [round1, jsRound]
  have := round1_mono h
  linarith

/-- Rounding a value at most 100 to one decimal stays at most 100. -/
theorem round1_le_100 {x : ℚ} (h : x ≤ 100) : round1 x ≤ 100 := by
  have h0 : round1 100 = 100 := by norm_num [round1, jsRound]
  have := round1_mono h
  linarith

/-- Rounding a value at most minus one to one decimal stays negative. -/
theorem round1_neg {x : ℚ} (h : x ≤ -1) : round1 x < 0 := by
  have h0 : round1 (-1) = -1 := by norm_num [round1, jsRound]
  have := round1_mono h
  linarith

/-- The clamp is bounded below by 0. -/
theorem clamp100_nonneg (x : ℚ) : 0 ≤ clamp100 x := le_max_left 0 _

/-- The clamp is bounded above by 100. -/
theorem clamp100_le (x : ℚ) : clamp100 x ≤ 100 :=
  max_le (by norm_num) (min_le_left _ _)

/-- The clamp is the identity on values already in `[0, 100]`. -/
theorem clamp100_of_bounds {x : ℚ} (h0 : 0 ≤ x) (h1 : x ≤ 100) :
    clamp100 x = x := by
  unfold clamp100
  rw [min_eq_right h1, max_eq_right h0]

end Lemmas

/-- C2: for every input record and every value of the random noise source,
each of the three nutrient outputs (nitrogen, phosphorus, potassium)
returned by `generatePredictions` lies in `[0, 100]`, including after the
rounding to one decimal place. -/
theorem nutrient_outputs_within_bounds (data : SoilInput) (ns : Noise) :
    0 ≤ (generatePredictions data ns).nitrogen ∧
      (generatePredictions data ns).nitrogen ≤ 100 ∧
    0 ≤ (generatePredictions data ns).phosphorus ∧
      (generatePredictions data ns).phosphorus ≤ 100 ∧
    0 ≤ (generatePredictions data ns).potassium ∧
      (generatePredictions data ns).potassium ≤ 100 :=
  ⟨round1_nonneg (clamp100_nonneg _), round1_le_100 (clamp100_le _),
   round1_nonneg (clamp100_nonneg _), round1_le_100 (clamp100_le _),
   round1_nonneg (clamp100_nonneg _), round1_le_100 (clamp100_le _)⟩

/-- C7: with `avg = (soilHealth + fertilityIndex) / 2`, crop suitability is
the Excellent band when `avg ≥ 80`, the Good band when `65 ≤ avg < 80`, the
amendments band when `50 ≤ avg < 65`, and the improvement band otherwise,
each band inclusive on its lower bound. -/
theorem assessCropSuitability_bands (soilHealth fertilityIndex : ℚ) :
    (80 ≤ (soilHealth + fertilityIndex) / 2 →
      assessCropSuitability soilHealth fertilityIndex = "Excellent for all crops") ∧
    (65 ≤ (soilHealth + fertilityIndex) / 2 → (soilHealth + fertilityIndex) / 2 < 80 →
      assessCropSuitability soilHealth fertilityIndex = "Good for most crops") ∧
    (50 ≤ (soilHealth + fertilityIndex) / 2 → (soilHealth + fertilityIndex) / 2 < 65 →
      assessCropSuitability soilHealth fertilityIndex = "Suitable with amendments") ∧
    ((soilHealth + fertilityIndex) / 2 < 50 →
      assessCropSuitability soilHealth fertilityIndex =
        "Requires significant improvement") := by
  unfold assessCropSuitability
  refine ⟨fun h => ?_, fun h h2 => ?_, fun h h2 => ?_, fun h => ?_⟩ <;>
    split_ifs <;> first | rfl | linarith

/-- C7 witness: an average of exactly 80 gives the Excellent band, an
average of 79.999 gives the Good band. -/
theorem assessCropSuitability_bands_witness :
    assessCropSuitability 80 80 = "Excellent for all crops" ∧
    assessCropSuitability (79999 / 1000) (79999 / 1000) = "Good for most crops" :=
  ⟨(assessCropSuitability_bands 80 80).1 (by norm_num),
   (assessCropSuitability_bands (79999 / 1000) (79999 / 1000)).2.1 (by norm_num)
     (by norm_num)⟩

/-- C8 counterexample: with the random draw 999/1000 (a legal value of
`Math.random()`), the confidence field rounds up to exactly 100, so it does
not lie in the half-open interval `[85, 100)`. -/
theorem confidence_can_reach_100 :
    (0 : ℚ) ≤ 999 / 1000 ∧ (999 / 1000 : ℚ) < 1 ∧
    (generatePredictions defaultInput ⟨0, 0, 0, 999 / 1000⟩).confidence = 100 ∧
    ¬ (generatePredictions defaultInput ⟨0, 0, 0, 999 / 1000⟩).confidence < 100 := by
  norm_num [generatePredictions, round1, jsRound]

/-- C8 amended: for every random draw in `[0, 1)`, the confidence field of
the result lies in the closed interval `[85, 100]`; the pre-rounding value
is in `[85, 100)` but rounding to one decimal can reach 100 exactly. -/
theorem confidence_within_85_100 (data : SoilInput) (ns : Noise)
    (h0 : 0 ≤ ns.rconf) (h1 : ns.rconf < 1) :
    85 ≤ (generatePredictions data ns).confidence ∧
      (generatePredictions data ns).confidence ≤ 100 := by
  have hc : (generatePredictions data ns).confidence =
      round1 (85 + ns.rconf * 15) := rfl
  constructor
  · rw [hc]
    have h85 : round1 85 = 85 := by norm_num [round1, jsRound]
    have := round1_mono (show (85 : ℚ) ≤ 85 + ns.rconf * 15 by linarith)
    linarith
  · rw [hc]
    exact round1_le_100 (by linarith)

/-- C8 witness: the amended confidence bounds at the random draw 1/2. -/
theorem confidence_within_85_100_witness :
    85 ≤ (generatePredictions defaultInput ⟨0, 0, 0, 1 / 2⟩).confidence ∧
      (generatePredictions defaultInput ⟨0, 0, 0, 1 / 2⟩).confidence ≤ 100 :=
  confidence_within_85_100 defaultInput ⟨0, 0, 0, 1 / 2⟩ (by norm_num) (by norm_num)

/-- Helper: an unrecognized parameter name has no entry in the ranges table. -/
theorem paramRanges_eq_none (p : String) (h1 : p ≠ "pH") (h2 : p ≠ "temperature")
    (h3 : p ≠ "moisture") (h4 : p ≠ "ec") (h5 : p ≠ "organicCarbon") :
    paramRanges p = none := by
  unfold paramRanges
  split <;> simp_all

/-- C4: the classifier follows the ordered band rule (value below low gives
Low, above high gives High, within 20 percent of optimal gives Optimal,
otherwise Good) with the fixed bands for pH, temperature, moisture, EC and
organic carbon; any unrecognized parameter name gives Unknown; and the
three concrete pH examples of the spec hold. -/
theorem getParameterStatus_spec (value : ℚ) :
    (getParameterStatus "pH" value =
      if value < 5.5 then "Low" else if value > 8.5 then "High"
      else if |value - 7| ≤ 7 * 0.2 then "Optimal" else "Good") ∧
    (getParameterStatus "temperature" value =
      if value < 18 then "Low" else if value > 30 then "High"
      else if |value - 25| ≤ 25 * 0.2 then "Optimal" else "Good") ∧
    (getParameterStatus "moisture" value =
      if value < 30 then "Low" else if value > 70 then "High"
      else if |value - 50| ≤ 50 * 0.2 then "Optimal" else "Good") ∧
    (getParameterStatus "ec" value =
      if value < 0.5 then "Low" else if value > 2 then "High"
      else if |value - 1.2| ≤ 1.2 * 0.2 then "Optimal" else "Good") ∧
    (getParameterStatus "organicCarbon" value =
      if value < 1 then "Low" else if value > 3.5 then "High"
      else if |value - 2.5| ≤ 2.5 * 0.2 then "Optimal" else "Good") ∧
    (∀ p : String, p ≠ "pH" → p ≠ "temperature" → p ≠ "moisture" → p ≠ "ec" →
      p ≠ "organicCarbon" → getParameterStatus p value = "Unknown") ∧
    getParameterStatus "pH" 7 = "Optimal" ∧
    getParameterStatus "pH" 4 = "Low" ∧
    getParameterStatus "pH" 12 = "High" := by
  refine ⟨rfl, rfl, rfl, rfl, rfl, fun p h1 h2 h3 h4 h5 => ?_, ?_, ?_, ?_⟩
  · unfold getParameterStatus
    rw [paramRanges_eq_none p h1 h2 h3 h4 h5]
  · norm_num [getParameterStatus, paramRanges]
  · norm_num [getParameterStatus, paramRanges]
  · norm_num [getParameterStatus, paramRanges]

/-- C4 witness: the unknown-parameter branch at the concrete name used by
the spec example, via the general theorem. -/
theorem getParameterStatus_spec_witness :
    getParameterStatus "unknown" 5 = "Unknown" :=
  (getParameterStatus_spec 5).2.2.2.2.2.1 "unknown" (by decide) (by decide)
    (by decide) (by decide) (by decide)

/-- Helper: the risks array is empty exactly when none of the six
threshold rules fires. -/
theorem riskList_eq_nil_iff (data : SoilInput) (nutrients : Nutrients) :
    riskList data nutrients = [] ↔
      ¬ data.pH < 5.5 ∧ ¬ data.pH > 8.5 ∧ ¬ data.ec > 2.5 ∧
      ¬ nutrients.nitrogen < 30 ∧ ¬ nutrients.phosphorus < 25 ∧
      ¬ nutrients.potassium < 35 := by
  unfold riskList
  split_ifs <;> simp_all

/-- Helper: the sentinel string never appears among the risk labels. -/
theorem low_risk_not_mem (data : SoilInput) (nutrients : Nutrients) :
    "Low risk" ∉ riskList data nutrients := by
  unfold riskList
  split_ifs <;> simp_all

/-- C5: if nitrogen is at least 30, phosphorus at least 25, potassium at
least 35, pH within `[5.5, 8.5]` and EC at most 2.5, then the risk
assessment is exactly the sentinel string; conversely when at least one of
the six rules fires, the result is the joined list of fired labels and the
sentinel is not among them. -/
theorem assessRisks_spec (data : SoilInput) (nutrients : Nutrients) :
    (30 ≤ nutrients.nitrogen → 25 ≤ nutrients.phosphorus →
      35 ≤ nutrients.potassium → 5.5 ≤ data.pH → data.pH ≤ 8.5 →
      data.ec ≤ 2.5 → assessRisks data nutrients = "Low risk") ∧
    ((data.pH < 5.5 ∨ data.pH > 8.5 ∨ data.ec > 2.5 ∨ nutrients.nitrogen < 30 ∨
        nutrients.phosphorus < 25 ∨ nutrients.potassium < 35) →
      assessRisks data nutrients =
        String.intercalate ", " (riskList data nutrients) ∧
      "Low risk" ∉ riskList data nutrients) := by
  constructor
  · intro h1 h2 h3 h4 h5 h6
    have hnil : riskList data nutrients = [] :=
      (riskList_eq_nil_iff data nutrients).mpr
        ⟨not_lt.mpr h4, not_lt.mpr h5, not_lt.mpr h6, not_lt.mpr h1,
         not_lt.mpr h2, not_lt.mpr h3⟩
    simp [assessRisks, hnil]
  · intro hfire
    have hne : riskList data nutrients ≠ [] := by
      intro heq
      rw [riskList_eq_nil_iff] at heq
      obtain ⟨k1, k2, k3, k4, k5, k6⟩ := heq
      rcases hfire with h | h | h | h | h | h <;> exact absurd h (by assumption)
    have hlen : (riskList data nutrients).length > 0 := List.length_pos.mpr hne
    exact ⟨by simp [assessRisks, hlen], low_risk_not_mem data nutrients⟩

/-- C5 witness: both directions at concrete inputs — the reset defaults
with healthy nutrients give the sentinel; a pH of 4 with low potassium
gives the joined fired labels without the sentinel. -/
theorem assessRisks_spec_witness :
    assessRisks defaultInput ⟨50, 50, 50⟩ = "Low risk" ∧
    (assessRisks ⟨4, 25, 50, 1.2, 2.2, "loam"⟩ ⟨50, 50, 20⟩ =
      String.intercalate ", "
        (riskList ⟨4, 25, 50, 1.2, 2.2, "loam"⟩ ⟨50, 50, 20⟩) ∧
     "Low risk" ∉ riskList ⟨4, 25, 50, 1.2, 2.2, "loam"⟩ ⟨50, 50, 20⟩) :=
  ⟨(assessRisks_spec defaultInput ⟨50, 50, 50⟩).1 (by norm_num) (by norm_num)
      (by norm_num) (by norm_num [defaultInput]) (by norm_num [defaultInput])
      (by norm_num [defaultInput]),
   (assessRisks_spec ⟨4, 25, 50, 1.2, 2.2, "loam"⟩ ⟨50, 50, 20⟩).2
      (Or.inl (by norm_num))⟩

/-- Helper: the pH-category recommendation count distributes over append. -/
theorem countPHRecs_append (l1 l2 : List Recommendation) :
    countPHRecs (l1 ++ l2) = countPHRecs l1 + countPHRecs l2 :=
  List.countP_append _ _ _

/-- Helper: the nutrient branches emit no pH-category recommendation. -/
theorem countPHRecs_nutrient (nutrients : Nutrients) :
    countPHRecs (nutrientRecommendation nutrients) = 0 := by
  unfold nutrientRecommendation countPHRecs
  split_ifs <;> rfl

/-- Helper: the organic matter branch emits no pH-category recommendation. -/
theorem countPHRecs_organic (data : SoilInput) :
    countPHRecs (organicRecommendation data) = 0 := by
  unfold organicRecommendation countPHRecs
  split_ifs <;> rfl

/-- Helper: the pH branch emits one pH recommendation when the pH leaves
`[6, 8]` and none otherwise. -/
theorem countPHRecs_pH (data : SoilInput) :
    countPHRecs (pHRecommendation data) =
      if data.pH < 6 then 1 else if data.pH > 8 then 1 else 0 := by
  unfold pHRecommendation countPHRecs
  split_ifs <;> rfl

/-- Helper: membership in the pH branch output. -/
theorem mem_pHRecommendation_iff (data : SoilInput) (r : Recommendation) :
    r ∈ pHRecommendation data ↔
      (data.pH < 6 ∧ r = limeRec) ∨
      (¬ data.pH < 6 ∧ data.pH > 8 ∧ r = sulfurRec) := by
  unfold pHRecommendation
  split_ifs <;> simp_all

/-- Helper: neither pH recommendation appears in the nutrient branches. -/
theorem pH_not_mem_nutrient (nutrients : Nutrients) :
    limeRec ∉ nutrientRecommendation nutrients ∧
      sulfurRec ∉ nutrientRecommendation nutrients := by
  unfold nutrientRecommendation
  split_ifs <;> simp_all [limeRec, sulfurRec]

/-- Helper: neither pH recommendation appears in the organic branch. -/
theorem pH_not_mem_organic (data : SoilInput) :
    limeRec ∉ organicRecommendation data ∧
      sulfurRec ∉ organicRecommendation data := by
  unfold organicRecommendation
  split_ifs <;> simp_all [limeRec, sulfurRec]

/-- C6: the recommendation list never contains both the lime and the sulfur
recommendation; exactly one pH-category recommendation is emitted when
`pH < 6` or `pH > 8`, and none when `6 ≤ pH ≤ 8`. -/
theorem pH_recommendation_exclusive (data : SoilInput) (nutrients : Nutrients) :
    ¬ (limeRec ∈ generateRecommendations data nutrients ∧
        sulfurRec ∈ generateRecommendations data nutrients) ∧
    (data.pH < 6 ∨ data.pH > 8 →
      countPHRecs (generateRecommendations data nutrients) = 1) ∧
    (6 ≤ data.pH → data.pH ≤ 8 →
      countPHRecs (generateRecommendations data nutrients) = 0) := by
  have hcount : countPHRecs (generateRecommendations data nutrients) =
      if data.pH < 6 then 1 else if data.pH > 8 then 1 else 0 := by
    unfold generateRecommendations
    rw [countPHRecs_append, countPHRecs_append, countPHRecs_pH,
      countPHRecs_nutrient, countPHRecs_organic]
    simp
  refine ⟨?_, ?_, ?_⟩
  · rintro ⟨hl, hs⟩
    unfold generateRecommendations at hl hs
    rw [List.mem_append, List.mem_append] at hl hs
    have hl2 : limeRec ∈ pHRecommendation data := by
      rcases hl with (h | h) | h
      · exact h
      · exact absurd h (pH_not_mem_nutrient nutrients).1
      · exact absurd h (pH_not_mem_organic data).1
    have hs2 : sulfurRec ∈ pHRecommendation data := by
      rcases hs with (h | h) | h
      · exact h
      · exact absurd h (pH_not_mem_nutrient nutrients).2
      · exact absurd h (pH_not_mem_organic data).2
    rw [mem_pHRecommendation_iff] at hl2 hs2
    rcases hl2 with ⟨h6, _⟩ | ⟨_, _, hbad⟩
    · rcases hs2 with ⟨_, hbad⟩ | ⟨hn6, _, _⟩
      · exact absurd hbad.symm (by simp [limeRec, sulfurRec])
      · exact hn6 h6
    · exact absurd hbad.symm (by simp [limeRec, sulfurRec])
  · intro h
    rw [hcount]
    rcases h with h | h
    · rw [if_pos h]
    · split_ifs <;> rfl
  · intro h1 h2
    rw [hcount, if_neg (by linarith), if_neg (by linarith)]

/-- C6 witness: both parts at concrete inputs — an acidic pH of 4 emits
exactly one pH recommendation, the reset default pH of 6.5 emits none. -/
theorem pH_recommendation_exclusive_witness :
    countPHRecs (generateRecommendations ⟨4, 25, 50, 1.2, 2.2, "loam"⟩
      ⟨50, 50, 50⟩) = 1 ∧
    countPHRecs (generateRecommendations defaultInput ⟨50, 50, 50⟩) = 0 :=
  ⟨(pH_recommendation_exclusive ⟨4, 25, 50, 1.2, 2.2, "loam"⟩ ⟨50, 50, 50⟩).2.1
      (Or.inl (by norm_num)),
   (pH_recommendation_exclusive defaultInput ⟨50, 50, 50⟩).2.2
      (by norm_num [defaultInput]) (by norm_num [defaultInput])⟩

/-- Helper: any soil type outside the six known keys falls back to the
loam modifier `(1, 1, 1)`. -/
theorem soilModifier_unknown (st : String) (h1 : st ≠ "clay") (h2 : st ≠ "sandy")
    (h3 : st ≠ "loam") (h4 : st ≠ "silt") (h5 : st ≠ "peat") (h6 : st ≠ "chalk") :
    soilModifier st = ⟨1, 1, 1⟩ := by
  unfold soilModifier
  split <;> simp_all

/-- C9: for every input whose soil type is not one of the six known keys,
the nutrient estimation behaves exactly as with the `loam` soil type: the
modifier falls back to `(1, 1, 1)` and, for any fixed noise, the estimated
nutrients coincide with those of the same input with soil type `loam`. -/
theorem unknown_soilType_defaults_to_loam (data : SoilInput) (ns : Noise)
    (h1 : data.soilType ≠ "clay") (h2 : data.soilType ≠ "sandy")
    (h3 : data.soilType ≠ "loam") (h4 : data.soilType ≠ "silt")
    (h5 : data.soilType ≠ "peat") (h6 : data.soilType ≠ "chalk") :
    soilModifier data.soilType = soilModifier "loam" ∧
    estimateNutrients data ns =
      estimateNutrients { data with soilType := "loam" } ns := by
  have hm : soilModifier data.soilType = ⟨1, 1, 1⟩ :=
    soilModifier_unknown data.soilType h1 h2 h3 h4 h5 h6
  have hl : soilModifier "loam" = ⟨1, 1, 1⟩ := rfl
  refine ⟨hm.trans hl.symm, ?_⟩
  unfold estimateNutrients calculatePotassium
  simp [hm, hl, h1]

/-- C9 witness: the unrecognized soil type `"gravel"` gives the same
nutrient estimates as `loam` at the reset default measurements. -/
theorem unknown_soilType_defaults_to_loam_witness :
    soilModifier "gravel" = soilModifier "loam" ∧
    estimateNutrients ⟨6.5, 25, 50, 1.2, 2.2, "gravel"⟩ ⟨1/2, 1/2, 1/2, 1/2⟩ =
      estimateNutrients ⟨6.5, 25, 50, 1.2, 2.2, "loam"⟩ ⟨1/2, 1/2, 1/2, 1/2⟩ :=
  unknown_soilType_defaults_to_loam ⟨6.5, 25, 50, 1.2, 2.2, "gravel"⟩
    ⟨1/2, 1/2, 1/2, 1/2⟩ (by decide) (by decide) (by decide) (by decide)
    (by decide) (by decide)

/-- C10: the engine outside the nutrient noise is deterministic — if two
noise records agree on the three nutrient draws, every field of the result
except the confidence value coincides; only the nutrient estimates and the
confidence depend on the random source. -/
theorem noise_noninterference (data : SoilInput) (ns1 ns2 : Noise)
    (hn : ns1.rn = ns2.rn) (hp : ns1.rp = ns2.rp) (hk : ns1.rk = ns2.rk) :
    (generatePredictions data ns1).nitrogen =
      (generatePredictions data ns2).nitrogen ∧
    (generatePredictions data ns1).phosphorus =
      (generatePredictions data ns2).phosphorus ∧
    (generatePredictions data ns1).potassium =
      (generatePredictions data ns2).potassium ∧
    (generatePredictions data ns1).soilHealth =
      (generatePredictions data ns2).soilHealth ∧
    (generatePredictions data ns1).fertilityIndex =
      (generatePredictions data ns2).fertilityIndex ∧
    (generatePredictions data ns1).riskAssessment =
      (generatePredictions data ns2).riskAssessment ∧
    (generatePredictions data ns1).cropSuitability =
      (generatePredictions data ns2).cropSuitability ∧
    (generatePredictions data ns1).recommendations =
      (generatePredictions data ns2).recommendations := by
  have hN : estimateNutrients data ns1 = estimateNutrients data ns2 := by
    unfold estimateNutrients
    rw [hn, hp, hk]
  refine ⟨?_, ?_, ?_, ?_, ?_, ?_, ?_, ?_⟩ <;> simp [generatePredictions, hN]

/-- C10 witness: two noise records differing only in the confidence draw
produce identical non-confidence fields at the reset defaults. -/
theorem noise_noninterference_witness :
    (generatePredictions defaultInput ⟨1/2, 1/2, 1/2, 0⟩).riskAssessment =
      (generatePredictions defaultInput ⟨1/2, 1/2, 1/2, 3/4⟩).riskAssessment ∧
    (generatePredictions defaultInput ⟨1/2, 1/2, 1/2, 0⟩).recommendations =
      (generatePredictions defaultInput ⟨1/2, 1/2, 1/2, 3/4⟩).recommendations :=
  ⟨(noise_noninterference defaultInput ⟨1/2, 1/2, 1/2, 0⟩ ⟨1/2, 1/2, 1/2, 3/4⟩
      rfl rfl rfl).2.2.2.2.2.1,
   (noise_noninterference defaultInput ⟨1/2, 1/2, 1/2, 0⟩ ⟨1/2, 1/2, 1/2, 3/4⟩
      rfl rfl rfl).2.2.2.2.2.2.2⟩

/-- C3: for every input and noise draw in `[0, 1)`, the reported nitrogen is
the spec base formula plus a noise term in `[0, 10)`, multiplied by the
soil-type n-modifier, clamped to `[0, 100]` and rounded to one decimal. -/
theorem nitrogen_formula_refinement (data : SoilInput) (ns : Noise)
    (h0 : 0 ≤ ns.rn) (h1 : ns.rn < 1) :
    ∃ noise : ℚ, 0 ≤ noise ∧ noise < 10 ∧
      (generatePredictions data ns).nitrogen =
        round1 (clamp100 ((specNitrogenBase data + noise) *
          (soilModifier data.soilType).n)) := by
  refine ⟨ns.rn * 10, by linarith, by linarith, ?_⟩
  have hfield : (generatePredictions data ns).nitrogen =
      round1 (clamp100 (calculateNitrogen data.pH data.temperature data.moisture
        data.organicCarbon ns.rn * (soilModifier data.soilType).n)) := rfl
  rw [hfield]
  have harg : calculateNitrogen data.pH data.temperature data.moisture
      data.organicCarbon ns.rn * (soilModifier data.soilType).n =
      (specNitrogenBase data + ns.rn * 10) * (soilModifier data.soilType).n := by
    unfold calculateNitrogen specNitrogenBase
    ring
  rw [harg]

/-- C3 witness: the nitrogen refinement at the reset defaults with the
noise draw 1/2. -/
theorem nitrogen_formula_refinement_witness :
    ∃ noise : ℚ, 0 ≤ noise ∧ noise < 10 ∧
      (generatePredictions defaultInput ⟨1/2, 1/2, 1/2, 1/2⟩).nitrogen =
        round1 (clamp100 ((specNitrogenBase defaultInput + noise) *
          (soilModifier defaultInput.soilType).n)) :=
  nitrogen_formula_refinement defaultInput ⟨1/2, 1/2, 1/2, 1/2⟩ (by norm_num)
    (by norm_num)

/-- C1: at the extreme input (pH 20, zero organic carbon and EC), the code
produces a strictly negative `soilHealth` for every legal noise draw: the
pH-score term `100 - |pH - 6.8| * 10` in `calculateSoilHealth` is not
floored at 0, contradicting the spec requirement that negative
intermediate results be floored and `soilHealth` stay in `[0, 100]`. -/
theorem soilHealth_negative_at_extreme_pH (ns : Noise) (h : ns.valid) :
    (generatePredictions extremeInput ns).soilHealth < 0 := by
  obtain ⟨⟨hn0, hn1⟩, ⟨hp0, hp1⟩, ⟨hk0, hk1⟩, -⟩ := h
  have hN : (estimateNutrients extremeInput ns).nitrogen = ns.rn * 10 := by
    have harg : calculateNitrogen 20 25 50 0 ns.rn * (soilModifier "loam").n =
        ns.rn * 10 := by
      norm_num [calculateNitrogen, soilModifier]
    calc (estimateNutrients extremeInput ns).nitrogen
        = clamp100 (calculateNitrogen 20 25 50 0 ns.rn *
            (soilModifier "loam").n) := rfl
      _ = clamp100 (ns.rn * 10) := by rw [harg]
      _ = ns.rn * 10 := clamp100_of_bounds (by linarith) (by linarith)
  have hP : (estimateNutrients extremeInput ns).phosphorus = ns.rp * 15 := by
    have harg : calculatePhosphorus 20 0 0 25 ns.rp * (soilModifier "loam").p =
        ns.rp * 15 := by
      norm_num [calculatePhosphorus, soilModifier]
    calc (estimateNutrients extremeInput ns).phosphorus
        = clamp100 (calculatePhosphorus 20 0 0 25 ns.rp *
            (soilModifier "loam").p) := rfl
      _ = clamp100 (ns.rp * 15) := by rw [harg]
      _ = ns.rp * 15 := clamp100_of_bounds (by linarith) (by linarith)
  have hK : (estimateNutrients extremeInput ns).potassium =
      22.5 + ns.rk * 12 := by
    have harg : calculatePotassium 20 0 50 "loam" ns.rk * (soilModifier "loam").k =
        22.5 + ns.rk * 12 := by
      have hne : ("loam" : String) ≠ "clay" := by decide
      norm_num [calculatePotassium, soilModifier, hne]
    calc (estimateNutrients extremeInput ns).potassium
        = clamp100 (calculatePotassium 20 0 50 "loam" ns.rk *
            (soilModifier "loam").k) := rfl
      _ = clamp100 (22.5 + ns.rk * 12) := by rw [harg]
      _ = 22.5 + ns.rk * 12 := clamp100_of_bounds (by linarith) (by linarith)
  have hfield : (generatePredictions extremeInput ns).soilHealth =
      round1 (calculateSoilHealth (estimateNutrients extremeInput ns).nitrogen
        (estimateNutrients extremeInput ns).phosphorus
        (estimateNutrients extremeInput ns).potassium 20 0) := rfl
  rw [hfield, hN, hP, hK]
  apply round1_neg
  have habs : |(20 : ℚ) - 6.8| = 20 - 6.8 := abs_of_pos (by norm_num)
  unfold calculateSoilHealth
  rw [habs]
  have hmin : min ((0 : ℚ) * 25) 100 = 0 * 25 := min_eq_left (by norm_num)
  rw [hmin]
  linarith

/-- C1 witness: with all four random draws zero (a legal value of
`Math.random()`), the extreme input yields a negative soil health score. -/
theorem soilHealth_negative_at_extreme_pH_witness :
    (Noise.mk 0 0 0 0).valid ∧
    (generatePredictions extremeInput ⟨0, 0, 0, 0⟩).soilHealth < 0 :=
  ⟨by norm_num [Noise.valid],
   soilHealth_negative_at_extreme_pH ⟨0, 0, 0, 0⟩ (by norm_num [Noise.valid])⟩
